import Mathlib

/-!
Verification of streaming/stream_result_future.hh.

A shallow embedding of the class `streaming::stream_result_future`.

* The compiled members are embedded line for line: the two constructors,
  `get_coordinator`, `create_and_register` and `add_event_listener`.
* The text between `#if 0` and `#endif` (`getCurrentState`, `equals`,
  `hashCode`, `handleSessionComplete`, `handleProgress`, `maybeComplete`) is not
  compiled and is not embedded: the class has no equality, no hash, no
  completion check and no session-complete handler.
* `stream_coordinator`, `utils::UUID`, `stream_event_handler` and the body of
  `fire_stream_event` live in other files, and the header defines no
  `handle_session_complete`; what the properties need of them is modelled from
  the specification, each definition saying so in its doc comment.
-/

namespace streaming

/-! ## Collaborators declared outside this header -/

/-- Modelled from the spec: `utils::UUID` (utils/UUID.hh), the plan identity: an
identifier whose only structure is equality. -/
abbrev UUID := Nat

/-- The string type `sstring` of core/sstring.hh. -/
abbrev sstring := String

/-- Modelled from the spec: `gms::inet_address` (gms/inet_address.hh), a peer
identity. -/
abbrev inet_address := Nat

/-- Modelled from the spec: Session Info, the snapshot of one session: the peer
address, byte counters and the flag telling a failed outcome from a successful
one. -/
structure session_info where
  peer : inet_address
  bytes_sent : Nat
  bytes_received : Nat
  failed : Bool
deriving DecidableEq, Repr

/-- Modelled from the spec: one coordinator entry, a peer's Session Info plus
its live/active flag. -/
structure peer_entry where
  info : session_info
  active : Bool
deriving DecidableEq, Repr

/-- Modelled from the spec: the state of `stream_coordinator`
(streaming/stream_coordinator.hh): the flag saying that this node is purely on
the receiving side, fixed at construction, and the peer entries in
registration order. -/
structure stream_coordinator where
  receiving : Bool
  peers : List peer_entry
deriving DecidableEq, Repr

/-- Modelled from the spec: `stream_coordinator::is_receiving`, the flag fixed
at construction. -/
def stream_coordinator.is_receiving (c : stream_coordinator) : Bool :=
  c.receiving

/-- Modelled from the spec: `stream_coordinator::has_active_sessions`: true iff
at least one registered peer is not terminal. -/
def stream_coordinator.has_active_sessions (c : stream_coordinator) : Bool :=
  c.peers.any (fun e => e.active)

/-- A listener, `stream_event_handler*`: the pointer value identifies it. -/
abbrev stream_event_handler := Nat

/-- Modelled from the spec: Aggregate Stream State: plan identity, description
and the Session Infos at the moment of computation. -/
structure stream_state where
  plan_id : UUID
  description : sstring
  sessions : List session_info
deriving DecidableEq, Repr

/-- Modelled from the spec: the typed events; `SessionComplete{session_info}` is
the one the properties below are about (its Session Info tells the success
variant from the failure one). -/
inductive stream_event where
  | SessionComplete (info : session_info)
deriving DecidableEq, Repr

/-- The resolution of the future as a caller awaiting it observes it: pending,
or resolved into the success state or into the failure state, each carrying
the aggregate. -/
inductive future_result where
  | pending
  | succeeded (state : stream_state)
  | failed (state : stream_state)
deriving DecidableEq, Repr

/-- One call made on a listener: the event, and what the listener finds if it
looks around at the moment of the call: the coordinator and the resolution of
the future as they stand then. -/
structure delivery where
  listener : stream_event_handler
  event : stream_event
  coordinator : stream_coordinator
  result : future_result
deriving DecidableEq, Repr

/-! ## The class -/

/-- The class `stream_result_future`: its four data members (`plan_id`,
`description`, `_coordinator`, `_event_listeners`), followed by two observation
fields that the C++ class does not store: `result`, the resolution of the
future, and `delivered`, the calls made on listeners so far, oldest first.
`_coordinator` holds the state of the coordinator object the pointer refers
to. -/
structure stream_result_future where
  plan_id : UUID
  description : sstring
  _coordinator : stream_coordinator
  _event_listeners : List stream_event_handler
  result : future_result
  delivered : List delivery
deriving DecidableEq, Repr

/-- The main constructor
`stream_result_future(UUID, sstring, shared_ptr<stream_coordinator>)`: the
member initialisers, then the `if` whose body holds only the comment
`// set(getCurrentState());`. -/
def stream_result_future.construct (plan_id_ : UUID) (description_ : sstring)
    (coordinator_ : stream_coordinator) : stream_result_future :=
  let self : stream_result_future :=
    { plan_id := plan_id_
      description := description_
      _coordinator := coordinator_
      _event_listeners := []
      result := .pending
      delivered := [] }
  if !self._coordinator.is_receiving && !self._coordinator.has_active_sessions then
    self
  else
    self

/-- The receiving-side constructor `stream_result_future(UUID, sstring, bool)`:
it delegates to the main constructor with
`make_shared<stream_coordinator>(1, keep_ss_table_levels_)`.  The constructor
of `stream_coordinator` is declared in another file and is taken as the
parameter `make_coordinator` (connections per host, then the flag). -/
def stream_result_future.construct_receiving
    (make_coordinator : Int → Bool → stream_coordinator)
    (plan_id_ : UUID) (description_ : sstring) (keep_ss_table_levels_ : Bool) :
    stream_result_future :=
  stream_result_future.construct plan_id_ description_
    (make_coordinator 1 keep_ss_table_levels_)

/-- The member `get_coordinator`: `return _coordinator;`.  The pair is the
returned coordinator and the object after the call. -/
def stream_result_future.get_coordinator (self : stream_result_future) :
    stream_coordinator × stream_result_future :=
  (self._coordinator, self)

/-- The static member `create_and_register`: builds the future and returns it;
the registration is the comment `// FIXME: StreamManager.instance.register(future);`,
so the registry (the futures registered so far) is handed back as it came. -/
def stream_result_future.create_and_register (registry : List stream_result_future)
    (plan_id_ : UUID) (description_ : sstring) (coordinator_ : stream_coordinator) :
    stream_result_future × List stream_result_future :=
  let future := stream_result_future.construct plan_id_ description_ coordinator_
  (future, registry)

/-- The member `add_event_listener`: `_event_listeners.push_back(listener);`
and nothing else (the line before it is the comment
`// FIXME: Futures.addCallback(this, listener);`). -/
def stream_result_future.add_event_listener (self : stream_result_future)
    (listener : stream_event_handler) : stream_result_future :=
  { self with _event_listeners := self._event_listeners ++ [listener] }


/-! ## Sequences of operations and sample inputs -/

/-- The operations of the compiled class that act on an existing future. -/
inductive future_op where
  | add_event_listener (listener : stream_event_handler)
  | get_coordinator
deriving DecidableEq, Repr

/-- The object after one operation. -/
def stream_result_future.apply (self : stream_result_future) : future_op → stream_result_future
  | .add_event_listener l => self.add_event_listener l
  | .get_coordinator => self.get_coordinator.2

/-- The object after a sequence of operations, first to last. -/
def stream_result_future.apply_all (self : stream_result_future) (ops : List future_op) :
    stream_result_future :=
  ops.foldl stream_result_future.apply self

/-- A sender-side coordinator of a plan with no peer. -/
def empty_coordinator : stream_coordinator :=
  { receiving := false, peers := [] }

/-- C3: `add_event_listener` appends.  After `f.add_event_listener(x)` the
listener list is the old list followed by `x`: one longer, the old entries at
their old positions, `x` at the end, and one more occurrence of `x` than before
(duplicates are kept).  On a newly constructed future, registering the
listeners of `ls` from first to last leaves exactly `ls`. -/
theorem add_event_listener_appends (f : stream_result_future) (x : stream_event_handler)
    (plan_id_ : UUID) (description_ : sstring) (c : stream_coordinator)
    (ls : List stream_event_handler) :
    (f.add_event_listener x)._event_listeners = f._event_listeners ++ [x]
    ∧ (f.add_event_listener x)._event_listeners.length = f._event_listeners.length + 1
    ∧ (f.add_event_listener x)._event_listeners.take f._event_listeners.length
        = f._event_listeners
    ∧ (f.add_event_listener x)._event_listeners[f._event_listeners.length]? = some x
    ∧ (f.add_event_listener x)._event_listeners.count x = f._event_listeners.count x + 1
    ∧ (ls.foldl stream_result_future.add_event_listener
        (stream_result_future.construct plan_id_ description_ c))._event_listeners = ls := by
  have key : ∀ (l : List stream_event_handler) (g : stream_result_future),
      (l.foldl stream_result_future.add_event_listener g)._event_listeners
        = g._event_listeners ++ l := by
    intro l
    induction l with
    | nil => intro g; simp
    | cons a t ih =>
      intro g
      rw [List.foldl_cons, ih]
      simp [stream_result_future.add_event_listener]
  refine ⟨rfl, ?_, ?_, ?_, ?_, ?_⟩
  · simp [stream_result_future.add_event_listener]
  · simp [stream_result_future.add_event_listener]
  · simp [stream_result_future.add_event_listener]
  · simp [stream_result_future.add_event_listener]
  · rw [key]
    simp [stream_result_future.construct]

/-- Registering listeners leaves `plan_id`, `description` and `_coordinator` as
they are. -/
theorem foldl_add_event_listener_frame (ls : List stream_event_handler)
    (f : stream_result_future) :
    (ls.foldl stream_result_future.add_event_listener f).plan_id = f.plan_id
    ∧ (ls.foldl stream_result_future.add_event_listener f).description = f.description
    ∧ (ls.foldl stream_result_future.add_event_listener f)._coordinator = f._coordinator := by
  induction ls generalizing f with
  | nil => simp
  | cons a t ih =>
    rw [List.foldl_cons]
    obtain ⟨h1, h2, h3⟩ := ih (f.add_event_listener a)
    exact ⟨h1, h2, h3⟩

/-- Any sequence of operations leaves `plan_id`, `description` and
`_coordinator` as they are. -/
theorem apply_all_frame (ops : List future_op) (f : stream_result_future) :
    (f.apply_all ops).plan_id = f.plan_id
    ∧ (f.apply_all ops).description = f.description
    ∧ (f.apply_all ops)._coordinator = f._coordinator := by
  induction ops generalizing f with
  | nil => simp [stream_result_future.apply_all]
  | cons a t ih =>
    have h := ih (f.apply a)
    simp only [stream_result_future.apply_all, List.foldl_cons] at h ⊢
    cases a <;> exact h

/-- C7: `get_coordinator` returns the coordinator the future was constructed
with: right after construction, and after any sequence of `add_event_listener`
calls; the call itself leaves the whole object as it was. -/
theorem get_coordinator_returns_constructed (plan_id_ : UUID) (description_ : sstring)
    (c : stream_coordinator) (ls : List stream_event_handler) (f : stream_result_future) :
    (stream_result_future.construct plan_id_ description_ c).get_coordinator.1 = c
    ∧ (ls.foldl stream_result_future.add_event_listener
        (stream_result_future.construct plan_id_ description_ c)).get_coordinator.1 = c
    ∧ f.get_coordinator.2 = f := by
  refine ⟨?_, ?_, rfl⟩
  · simp [stream_result_future.get_coordinator, stream_result_future.construct]
  · have h := (foldl_add_event_listener_frame ls
      (stream_result_future.construct plan_id_ description_ c)).2.2
    simp only [stream_result_future.get_coordinator]
    rw [h]
    simp [stream_result_future.construct]

/-- C8: plan identity and description do not change.  The constructor stores the
`plan_id` and `description` it is given; `add_event_listener` and
`get_coordinator` each leave both fields alone; so after any sequence of these
operations both fields still equal the constructor arguments. -/
theorem plan_id_and_description_immutable (plan_id_ : UUID) (description_ : sstring)
    (c : stream_coordinator) (f : stream_result_future) (x : stream_event_handler)
    (ops : List future_op) :
    (stream_result_future.construct plan_id_ description_ c).plan_id = plan_id_
    ∧ (stream_result_future.construct plan_id_ description_ c).description = description_
    ∧ (f.add_event_listener x).plan_id = f.plan_id
    ∧ (f.add_event_listener x).description = f.description
    ∧ f.get_coordinator.2.plan_id = f.plan_id
    ∧ f.get_coordinator.2.description = f.description
    ∧ ((stream_result_future.construct plan_id_ description_ c).apply_all ops).plan_id
        = plan_id_
    ∧ ((stream_result_future.construct plan_id_ description_ c).apply_all ops).description
        = description_ := by
  have hc1 : (stream_result_future.construct plan_id_ description_ c).plan_id = plan_id_ := by
    simp [stream_result_future.construct]
  have hc2 : (stream_result_future.construct plan_id_ description_ c).description
      = description_ := by
    simp [stream_result_future.construct]
  obtain ⟨h1, h2, _⟩ :=
    apply_all_frame ops (stream_result_future.construct plan_id_ description_ c)
  exact ⟨hc1, hc2, rfl, rfl, rfl, rfl, h1.trans hc1, h2.trans hc2⟩

/-- C9: the receiving-side constructor equals the main constructor applied to
the coordinator built as `stream_coordinator(1, keep_ss_table_levels_)`: the
future has the given `plan_id` and `description`, no listener, and that
coordinator, built with 1 connection per host and the given flag; wherever the
coordinator constructor tells 1 from 0, the coordinator is not the one built
with 0. -/
theorem construct_receiving_delegates (make_coordinator : Int → Bool → stream_coordinator)
    (plan_id_ : UUID) (description_ : sstring) (keep_ss_table_levels_ : Bool) :
    stream_result_future.construct_receiving make_coordinator plan_id_ description_
        keep_ss_table_levels_
      = stream_result_future.construct plan_id_ description_
          (make_coordinator 1 keep_ss_table_levels_)
    ∧ (stream_result_future.construct_receiving make_coordinator plan_id_ description_
        keep_ss_table_levels_).plan_id = plan_id_
    ∧ (stream_result_future.construct_receiving make_coordinator plan_id_ description_
        keep_ss_table_levels_).description = description_
    ∧ (stream_result_future.construct_receiving make_coordinator plan_id_ description_
        keep_ss_table_levels_)._event_listeners = []
    ∧ (stream_result_future.construct_receiving make_coordinator plan_id_ description_
        keep_ss_table_levels_)._coordinator = make_coordinator 1 keep_ss_table_levels_
    ∧ (make_coordinator 1 keep_ss_table_levels_ ≠ make_coordinator 0 keep_ss_table_levels_ →
        (stream_result_future.construct_receiving make_coordinator plan_id_ description_
          keep_ss_table_levels_)._coordinator ≠ make_coordinator 0 keep_ss_table_levels_) := by
  refine ⟨rfl, ?_, ?_, ?_, ?_, ?_⟩ <;>
    simp [stream_result_future.construct_receiving, stream_result_future.construct]

/-- C10: construction has no side effect on its collaborators.  Whatever
`is_receiving` and `has_active_sessions` answer, the constructor yields the
future with the given `plan_id` and `description`, the coordinator `c` in the
state it came in, and no listener; `create_and_register` yields the same future
as the constructor and hands the registry back as it came. -/
theorem construction_has_no_side_effect (registry : List stream_result_future)
    (plan_id_ : UUID) (description_ : sstring) (c : stream_coordinator) :
    (stream_result_future.construct plan_id_ description_ c)._coordinator = c
    ∧ (stream_result_future.construct plan_id_ description_ c)._event_listeners = []
    ∧ (stream_result_future.construct plan_id_ description_ c).plan_id = plan_id_
    ∧ (stream_result_future.construct plan_id_ description_ c).description = description_
    ∧ (stream_result_future.construct plan_id_ description_ c).delivered = []
    ∧ (stream_result_future.create_and_register registry plan_id_ description_ c).1
        = stream_result_future.construct plan_id_ description_ c
    ∧ (stream_result_future.create_and_register registry plan_id_ description_ c).1._coordinator
        = c
    ∧ (stream_result_future.create_and_register registry plan_id_ description_ c).2
        = registry := by
  refine ⟨?_, ?_, ?_, ?_, ?_, rfl, ?_, rfl⟩ <;>
    simp [stream_result_future.create_and_register, stream_result_future.construct]

/-- C1, the constructor on a plan with no peer: for the sender-side coordinator
without sessions (`is_receiving` false, `has_active_sessions` false) the
constructed future is pending, not the success state with an empty set of
Session Infos; the constructor leaves the future pending for every
coordinator. -/
theorem construct_empty_plan_stays_pending (plan_id_ : UUID) (description_ : sstring) :
    empty_coordinator.is_receiving = false
    ∧ empty_coordinator.has_active_sessions = false
    ∧ (stream_result_future.construct plan_id_ description_ empty_coordinator).result
        = .pending
    ∧ (stream_result_future.construct plan_id_ description_ empty_coordinator).result
        ≠ .succeeded { plan_id := plan_id_, description := description_, sessions := [] }
    ∧ ∀ c : stream_coordinator,
        (stream_result_future.construct plan_id_ description_ c).result = .pending := by
  refine ⟨rfl, rfl, ?_, ?_, ?_⟩
  · simp [stream_result_future.construct]
  · simp [stream_result_future.construct]
  · intro c
    simp [stream_result_future.construct]

end streaming
